import Mathlib

/-!
Verification of the split-bot message normalization and extraction pipeline.

The definitions below are a shallow embedding of the Go sources:
  * `internal/telegram/entity.go` — the inbound webhook payload shapes,
  * `internal/ocr/mistral.go`     — the OCR extraction gateway,
  * `internal/api/telegram.go`    — `preProcessMsg`, `handlePhotoMessage`,
    `handleDocumentMessage`, `TelegramWebhook` (the message normalizer and
    webhook handler),
  * `internal/splitbot/bot.go`    — `HandleMessage` (the response producer)
    and the `Message`/`Image`/`User` shapes.

External collaborators (the Telegram file-URL resolver, the HTTP transport
to the OCR provider, the conversational chain, and the reply sender) are
modelled as explicit function parameters collected in `Env`, so every
theorem quantifies over their behavior.  Go's `(T, error)` returns become
`Except String T`; `nil`-able pointers become `Option`.
-/

namespace SplitBot

/-- `telegram.Photo` from entity.go (one resolution variant of a photo). -/
structure Photo where
  fileID : String
  fileUniqueID : String
  fileSize : Nat
  width : Nat
  height : Nat
  deriving Repr, DecidableEq

/-- `telegram.Document` from entity.go. -/
structure TgDocument where
  fileName : String
  fileID : String
  fileUniqueID : String
  fileSize : Nat
  deriving Repr, DecidableEq

/-- `telegram.User` from entity.go (fields the pipeline reads). -/
structure TgUser where
  id : Int
  username : String
  deriving Repr, DecidableEq

/-- `telegram.Chat` from entity.go (field the pipeline reads). -/
structure Chat where
  id : Int
  deriving Repr, DecidableEq

/-- `telegram.Message` from entity.go: the raw inbound event body.
`fromUser` renders the Go field `From` (`from` is reserved in Lean). -/
structure TgMessage where
  text : String
  chat : Chat
  fromUser : Option TgUser
  photo : List Photo
  caption : String
  document : Option TgDocument
  deriving Repr, DecidableEq

/-- `telegram.Update` from entity.go: `Message` is a nilable pointer. -/
structure Update where
  message : Option TgMessage
  deriving Repr, DecidableEq

/-- `splitbot.Image` from the splitbot package. -/
structure Image where
  url : String
  fileID : String
  extractedText : String
  deriving Repr, DecidableEq

/-- `splitbot.User` from the splitbot package. -/
structure SBUser where
  id : Int
  username : String
  deriving Repr, DecidableEq

/-- `splitbot.Message` — the canonical internal message.  `image` is the
attachment extraction (nil pointer in Go = `none`). -/
structure SBMessage where
  text : String
  image : Option Image
  fromUser : SBUser
  deriving Repr, DecidableEq

/-! ## OCR extraction gateway (`internal/ocr/mistral.go`) -/

/-- `ocr.Page` from mistral.go (fields the gateway reads). -/
structure Page where
  index : Int
  markdown : String
  deriving Repr, DecidableEq

/-- `ocr.MistralOCRResponse` from mistral.go (field the gateway reads). -/
structure MistralOCRResponse where
  pages : List Page
  deriving Repr, DecidableEq

/-- `ocr.ValidationDetail` from mistral.go. -/
structure ValidationDetail where
  loc : List String
  msg : String
  kind : String
  deriving Repr, DecidableEq

/-- `ocr.MistralValidationError` from mistral.go. -/
structure MistralValidationError where
  detail : List ValidationDetail
  deriving Repr, DecidableEq

/-- The observable outcome of the one HTTP call the gateway makes
(`m.client.R()...Post(...)` in `ExtractTextFromImage`), after the status
switch and `json.Unmarshal` attempts that the Go code performs:
  * `transportError` — the call itself failed (`err != nil` from resty);
  * `ok r` — status 200; `r = none` models a body `json.Unmarshal`
    rejects, `r = some resp` the parsed `MistralOCRResponse`;
  * `validation v` — status 442, with the parse result likewise;
  * `other status body` — any other status code with its raw body. -/
inductive ProviderResponse where
  | transportError (msg : String)
  | ok (r : Option MistralOCRResponse)
  | validation (v : Option MistralValidationError)
  | other (status : Nat) (body : String)
  deriving Repr, DecidableEq

/-- `(*MistralOCR).ExtractTextFromImage` from mistral.go, as a function of
the provider call's outcome.  Mirrors the Go `switch resp.StatusCode()`:
on 200 the page count must be exactly 1, else an error; on 442 the first
validation detail's message is reported; other statuses and transport
failures are errors. -/
def ExtractTextFromImage (resp : ProviderResponse) : Except String String :=
  match resp with
  | .transportError msg => .error ("failed to make request: " ++ msg)
  | .ok none => .error "failed to unmarshal response"
  | .ok (some ocrResponse) =>
      if ocrResponse.pages.length ≠ 1 then
        .error ("expected exactly 1 page, got " ++ toString ocrResponse.pages.length)
      else
        .ok ((ocrResponse.pages.headD ⟨0, ""⟩).markdown)
  | .validation none => .error "failed to unmarshal validation error"
  | .validation (some validationError) =>
      match validationError.detail with
      | d :: _ => .error ("validation error: " ++ d.msg)
      | [] => .error "validation error: unknown validation error"
  | .other status body =>
      .error ("API request failed with status " ++ toString status ++ ": " ++ body)

/-! ## Attachment resolver -/

/-- The photo-variant selection `photos[len(photos)-1]` inline in
`handlePhotoMessage` (telegram.go line 86), called `PickBestPhoto` by the
spec.  Indexing an empty slice would panic in Go; here that is the `none`
result, unreachable from `preProcessMsg`, which guards with
`len(update.Message.Photo) > 0`. -/
def PickBestPhoto (photos : List Photo) : Option Photo :=
  photos[photos.length - 1]?

/-! ## External collaborators -/

/-- The external collaborators the pipeline calls, as injected functions.
  * `getImageUrl` — `(*TelegramAPI).GetImageUrl`, resolving a file
    identifier to a fetchable URL (the request ID argument is an opaque
    trace token and does not influence the result, so it is dropped);
  * `extractTextFromImage` — `ocr.ImageOCR.ExtractTextFromImage`, URL in,
    text or error out (for the Mistral implementation see
    `ExtractTextFromImage` above, composed with a provider transport);
  * `runChain` — `chains.Run` over the bot's agent executor, the
    conversational capability;
  * `sendMessage` — `(*TelegramAPI).SendMessage`. -/
structure Env where
  getImageUrl : String → Except String String
  extractTextFromImage : String → Except String String
  runChain : String → Except String String
  sendMessage : Int → String → Except String Unit

/-! ## Message normalizer (`internal/api/telegram.go`) -/

/-- The OCR step shared by both handlers (telegram.go lines 94-99 and
119-124): `extractedText, err := t.OCR.ExtractTextFromImage(...)`, with a
failed extraction replaced by the fixed sentinel string. -/
def extractedTextOf (env : Env) (url : String) : String :=
  match env.extractTextFromImage url with
  | .error _ => "OCR extraction failed"
  | .ok extractedText => extractedText

/-- The caption override shared by both handlers (telegram.go lines
106-108 and 131-133): `if len(caption) > 0 { msg.Text = caption }`. -/
def applyCaption (caption : String) (msg : SBMessage) : SBMessage :=
  if caption.length > 0 then { msg with text := caption } else msg

/-- `(*TelegramWebhook).handlePhotoMessage` (telegram.go lines 85-110):
pick the last photo variant, resolve its URL (failure aborts), run OCR
(failure is replaced by the sentinel text), attach the `Image`, and apply
the caption override when the caption is non-empty.  The `none` branch of
`PickBestPhoto` models the Go panic on an empty slice; `preProcessMsg`
never reaches it. -/
def handlePhotoMessage (env : Env) (msg : SBMessage) (photos : List Photo)
    (caption : String) : Except String SBMessage :=
  match PickBestPhoto photos with
  | none => .error "panic: index out of range"
  | some highestResPhoto =>
    match env.getImageUrl highestResPhoto.fileID with
    | .error _ => .error "failed to get image URL"
    | .ok url =>
      .ok (applyCaption caption
        { msg with image := some { fileID := highestResPhoto.fileID, url := url,
                                   extractedText := extractedTextOf env url } })

/-- `(*TelegramWebhook).handleDocumentMessage` (telegram.go lines 112-135):
same as the photo handler but for the single document reference. -/
def handleDocumentMessage (env : Env) (msg : SBMessage) (document : TgDocument)
    (caption : String) : Except String SBMessage :=
  match env.getImageUrl document.fileID with
  | .error _ => .error "failed to get image URL"
  | .ok url =>
    .ok (applyCaption caption
      { msg with image := some { fileID := document.fileID, url := url,
                                 extractedText := extractedTextOf env url } })

/-- The canonical message as `preProcessMsg` initializes it before the
attachment branches (telegram.go lines 145-154): text from the event's
text field, no image, sender copied when present (zero value otherwise,
as for an uninitialized Go struct field). -/
def initMsg (message : TgMessage) : SBMessage :=
  let msg : SBMessage :=
    { text := message.text, image := none, fromUser := { id := 0, username := "" } }
  match message.fromUser with
  | some u => { msg with fromUser := { id := u.id, username := u.username } }
  | none => msg

/-- `(*TelegramWebhook).preProcessMsg` (telegram.go lines 137-169), from
the already-parsed `Update` (the `parseBody` JSON step is the transport
boundary; its failure propagates the same `.error` path).  A `nil` message
yields `(nil, 0, nil)` — the ignored outcome, `.ok (none, 0)` here.  A
non-empty photo list takes precedence over a document; with neither, the
message carries only the initialized text. -/
def preProcessMsg (env : Env) (update : Update) :
    Except String (Option SBMessage × Int) :=
  match update.message with
  | none => .ok (none, 0)
  | some message =>
    let msg : SBMessage := initMsg message
    if message.photo.length > 0 then
      match handlePhotoMessage env msg message.photo message.caption with
      | .error e => .error e
      | .ok msg => .ok (some msg, message.chat.id)
    else
      match message.document with
      | some document =>
        match handleDocumentMessage env msg document message.caption with
        | .error e => .error e
        | .ok msg => .ok (some msg, message.chat.id)
      | none => .ok (some msg, message.chat.id)

/-! ## Response producer (`internal/splitbot/bot.go`) -/

/-- `(*Bot).HandleMessage` (bot.go lines 56-62): with an attached image,
reply with its extracted text; otherwise route the text through the
conversational chain (`chains.Run` over the agent executor) — there is no
configuration that skips the chain. -/
def HandleMessage (runChain : String → Except String String)
    (message : SBMessage) : Except String String :=
  match message.image with
  | some image => .ok image.extractedText
  | none => runChain message.text

/-- The HTTP-visible outcome of one webhook invocation
(`(*TelegramWebhook).TelegramWebhook`, telegram.go lines 36-69). -/
inductive WebhookStatus where
  | internalError (msg : String)
  | ignored
  | sendError
  | ok
  deriving Repr, DecidableEq

/-- `(*TelegramWebhook).TelegramWebhook`: normalize, handle, send.  The
second component records every `SendMessage` call made (chat id and text),
so "no reply is sent" is `[]`. -/
def TelegramWebhook (env : Env) (update : Update) :
    WebhookStatus × List (Int × String) :=
  match preProcessMsg env update with
  | .error e => (.internalError e, [])
  | .ok (none, _) => (.ignored, [])
  | .ok (some message, chatID) =>
    match HandleMessage env.runChain message with
    | .error e => (.internalError e, [])
    | .ok response =>
      match env.sendMessage chatID response with
      | .error _ => (.sendError, [(chatID, response)])
      | .ok _ => (.ok, [(chatID, response)])

/-! ## Concrete fixtures

Sample events and collaborator environments used to instantiate the
theorems below on closed inputs. -/

def photo1 : Photo :=
  { fileID := "p1", fileUniqueID := "pu1", fileSize := 1000, width := 90, height := 90 }

def photo2 : Photo :=
  { fileID := "p2", fileUniqueID := "pu2", fileSize := 4000, width := 320, height := 320 }

def photo3 : Photo :=
  { fileID := "p3", fileUniqueID := "pu3", fileSize := 9000, width := 800, height := 800 }

def doc1 : TgDocument :=
  { fileName := "receipt.pdf", fileID := "d1", fileUniqueID := "du1", fileSize := 500 }

def user1 : TgUser := { id := 42, username := "alice" }

/-- Environment in which every collaborator succeeds: URL resolution
prefixes the file id, OCR returns a fixed text, the chain tags its input,
sending succeeds. -/
def envOK : Env :=
  { getImageUrl := fun f => .ok ("https://files.example/" ++ f)
    extractTextFromImage := fun _ => .ok "Total: $42"
    runChain := fun t => .ok ("chain:" ++ t)
    sendMessage := fun _ _ => .ok () }

/-- Like `envOK` but the OCR call fails. -/
def envOCRFail : Env :=
  { envOK with extractTextFromImage := fun _ => .error "ocr transport down" }

/-- Like `envOK` but URL resolution fails. -/
def envURLFail : Env :=
  { envOK with getImageUrl := fun _ => .error "telegram api down" }

def pageOne : Page := { index := 0, markdown := "page one" }

def pageTwo : Page := { index := 1, markdown := "page two" }

/-- A provider transport that always answers HTTP 200 with a parsed
two-page body. -/
def providerTwoPages : String → ProviderResponse :=
  fun _ => .ok (some { pages := [pageOne, pageTwo] })

/-- A conversational chain returning a canned reply regardless of input. -/
def runChainCanned : String → Except String String :=
  fun _ => .ok "canned agent reply"

/-- Like `envOK` but OCR is the Mistral gateway over `providerTwoPages`. -/
def envTwoPages : Env :=
  { envOK with extractTextFromImage := fun url => ExtractTextFromImage (providerTwoPages url) }

/-- Message body carrying both a photo-variant list and a document, with
a caption and accompanying text. -/
def tgMsgBoth : TgMessage :=
  { text := "original text", chat := { id := 7 }, fromUser := some user1,
    photo := [photo1, photo2, photo3], caption := "split lunch",
    document := some doc1 }

/-- Event carrying both a photo-variant list and a document. -/
def updBoth : Update := { message := some tgMsgBoth }

/-- Photo-bearing message body whose caption is empty. -/
def tgMsgPhotoNoCap : TgMessage :=
  { text := "original text", chat := { id := 7 }, fromUser := some user1,
    photo := [photo1], caption := "", document := none }

/-- Photo-bearing event whose caption is empty. -/
def updPhotoNoCap : Update := { message := some tgMsgPhotoNoCap }

/-- Document-bearing message body (no photos) with a caption. -/
def tgMsgDoc : TgMessage :=
  { text := "original text", chat := { id := 9 }, fromUser := none,
    photo := [], caption := "dinner", document := some doc1 }

/-- Document-bearing event (no photos) with a caption. -/
def updDoc : Update := { message := some tgMsgDoc }

/-- Plain text message body: no photo, no document; its caption field is
populated to show it is never consulted. -/
def tgMsgText : TgMessage :=
  { text := "Hello", chat := { id := 3 }, fromUser := some user1,
    photo := [], caption := "stray caption", document := none }

/-- Plain text event. -/
def updText : Update := { message := some tgMsgText }

/-- Event with no message body at all. -/
def updEmpty : Update := { message := none }

/-- A canonical message with text and no attachment extraction. -/
def msgHello : SBMessage :=
  { text := "Hello", image := none, fromUser := { id := 42, username := "alice" } }

/-- The canonical message `preProcessMsg envOK updBoth` produces. -/
def smBoth : SBMessage :=
  { text := "split lunch",
    image := some { url := "https://files.example/p3", fileID := "p3",
                    extractedText := "Total: $42" },
    fromUser := { id := 42, username := "alice" } }

/-- The canonical message `preProcessMsg envOK updPhotoNoCap` produces. -/
def smPhotoNoCap : SBMessage :=
  { text := "original text",
    image := some { url := "https://files.example/p1", fileID := "p1",
                    extractedText := "Total: $42" },
    fromUser := { id := 42, username := "alice" } }

/-! ## Helper lemmas -/

theorem string_length_pos (s : String) (h : s ≠ "") : 0 < s.length := by
  cases s with
  | mk data =>
    cases data with
    | nil => exact absurd rfl h
    | cons c cs => simp [String.length]

theorem pickBestPhoto_eq_getLast (photos : List Photo) (h : photos ≠ []) :
    PickBestPhoto photos = some (photos.getLast h) := by
  have hlt : photos.length - 1 < photos.length :=
    Nat.sub_lt (List.length_pos.mpr h) Nat.one_pos
  rw [PickBestPhoto, List.getElem?_eq_getElem hlt, List.getLast_eq_getElem]

theorem extractedTextOf_of_error (env : Env) (url e : String)
    (h : env.extractTextFromImage url = .error e) :
    extractedTextOf env url = "OCR extraction failed" := by
  simp [extractedTextOf, h]

theorem applyCaption_image (caption : String) (msg : SBMessage) :
    (applyCaption caption msg).image = msg.image := by
  unfold applyCaption
  split <;> rfl

theorem applyCaption_text (caption : String) (msg : SBMessage) :
    (applyCaption caption msg).text =
      if caption.length > 0 then caption else msg.text := by
  unfold applyCaption
  split <;> simp_all

theorem initMsg_text (m : TgMessage) : (initMsg m).text = m.text := by
  unfold initMsg
  cases m.fromUser <;> rfl

theorem initMsg_image (m : TgMessage) : (initMsg m).image = none := by
  unfold initMsg
  cases m.fromUser <;> rfl

theorem except_map_ok_inv {α β : Type} (f : α → β) (e : Except String α) (b : β)
    (h : e.map f = .ok b) : ∃ a, e = .ok a ∧ f a = b := by
  cases e with
  | error err => simp [Except.map] at h
  | ok a => exact ⟨a, rfl, by simpa [Except.map] using h⟩

theorem handlePhotoMessage_eq_ok (env : Env) (msg : SBMessage) (photos : List Photo)
    (caption : String) (ph : Photo) (url : String)
    (hph : PickBestPhoto photos = some ph)
    (hurl : env.getImageUrl ph.fileID = .ok url) :
    handlePhotoMessage env msg photos caption =
      .ok (applyCaption caption
        { msg with image := some { fileID := ph.fileID, url := url,
                                   extractedText := extractedTextOf env url } }) := by
  simp [handlePhotoMessage, hph, hurl]

theorem handleDocumentMessage_eq_ok (env : Env) (msg : SBMessage) (document : TgDocument)
    (caption : String) (url : String)
    (hurl : env.getImageUrl document.fileID = .ok url) :
    handleDocumentMessage env msg document caption =
      .ok (applyCaption caption
        { msg with image := some { fileID := document.fileID, url := url,
                                   extractedText := extractedTextOf env url } }) := by
  simp [handleDocumentMessage, hurl]

theorem handlePhotoMessage_ok_inv (env : Env) (msg : SBMessage) (photos : List Photo)
    (caption : String) (sm : SBMessage)
    (h : handlePhotoMessage env msg photos caption = .ok sm) :
    ∃ ph url, PickBestPhoto photos = some ph ∧ env.getImageUrl ph.fileID = .ok url ∧
      sm = applyCaption caption
        { msg with image := some { fileID := ph.fileID, url := url,
                                   extractedText := extractedTextOf env url } } := by
  unfold handlePhotoMessage at h
  split at h
  · exact absurd h (by simp)
  next ph hph =>
    split at h
    next e hurl => exact absurd h (by simp)
    next url hurl =>
      injection h with h
      exact ⟨ph, url, hph, hurl, h.symm⟩

theorem handleDocumentMessage_ok_inv (env : Env) (msg : SBMessage)
    (document : TgDocument) (caption : String) (sm : SBMessage)
    (h : handleDocumentMessage env msg document caption = .ok sm) :
    ∃ url, env.getImageUrl document.fileID = .ok url ∧
      sm = applyCaption caption
        { msg with image := some { fileID := document.fileID, url := url,
                                   extractedText := extractedTextOf env url } } := by
  unfold handleDocumentMessage at h
  split at h
  next e hurl => exact absurd h (by simp)
  next url hurl =>
    injection h with h
    exact ⟨url, hurl, h.symm⟩

theorem preProcessMsg_none (env : Env) (u : Update) (hm : u.message = none) :
    preProcessMsg env u = .ok (none, 0) := by
  simp [preProcessMsg, hm]

theorem preProcessMsg_photo (env : Env) (u : Update) (m : TgMessage)
    (hm : u.message = some m) (hp : 0 < m.photo.length) :
    preProcessMsg env u =
      (handlePhotoMessage env (initMsg m) m.photo m.caption).map
        (fun sm => (some sm, m.chat.id)) := by
  simp only [preProcessMsg, hm]
  rw [if_pos hp]
  cases h : handlePhotoMessage env (initMsg m) m.photo m.caption <;>
    simp [Except.map, h]

theorem preProcessMsg_doc (env : Env) (u : Update) (m : TgMessage) (d : TgDocument)
    (hm : u.message = some m) (hp : m.photo = []) (hd : m.document = some d) :
    preProcessMsg env u =
      (handleDocumentMessage env (initMsg m) d m.caption).map
        (fun sm => (some sm, m.chat.id)) := by
  simp only [preProcessMsg, hm, hp, hd]
  cases h : handleDocumentMessage env (initMsg m) d m.caption <;>
    simp [Except.map, h]

theorem preProcessMsg_plain (env : Env) (u : Update) (m : TgMessage)
    (hm : u.message = some m) (hp : m.photo = []) (hd : m.document = none) :
    preProcessMsg env u = .ok (some (initMsg m), m.chat.id) := by
  simp [preProcessMsg, hm, hp, hd]

theorem handlePhotoMessage_eq_error (env : Env) (msg : SBMessage) (photos : List Photo)
    (caption : String) (ph : Photo) (e : String)
    (hph : PickBestPhoto photos = some ph)
    (hurl : env.getImageUrl ph.fileID = .error e) :
    handlePhotoMessage env msg photos caption = .error "failed to get image URL" := by
  simp [handlePhotoMessage, hph, hurl]

theorem handleDocumentMessage_eq_error (env : Env) (msg : SBMessage)
    (document : TgDocument) (caption : String) (e : String)
    (hurl : env.getImageUrl document.fileID = .error e) :
    handleDocumentMessage env msg document caption = .error "failed to get image URL" := by
  simp [handleDocumentMessage, hurl]

theorem initMsg_caption_irrel (m : TgMessage) (c : String) :
    initMsg { m with caption := c } = initMsg m := by
  unfold initMsg
  rfl

theorem photo_nil_of_not_pos (m : TgMessage) (hp : ¬ 0 < m.photo.length) :
    m.photo = [] := by
  cases hmp : m.photo with
  | nil => rfl
  | cons a as => rw [hmp] at hp; simp at hp

/-- Master inversion: any successful normalization that yields a message
is one of the three branches of `preProcessMsg` — photo handled, document
handled, or plain text — with the exact message each branch builds. -/
theorem preProcessMsg_ok_inv (env : Env) (u : Update) (m : TgMessage)
    (sm : SBMessage) (cid : Int)
    (hm : u.message = some m)
    (hres : preProcessMsg env u = .ok (some sm, cid)) :
    cid = m.chat.id ∧
    ((∃ ph url, PickBestPhoto m.photo = some ph ∧ m.photo ≠ [] ∧
        env.getImageUrl ph.fileID = .ok url ∧
        sm = applyCaption m.caption
          { initMsg m with image := some { url := url, fileID := ph.fileID,
                                           extractedText := extractedTextOf env url } }) ∨
     (∃ d url, m.photo = [] ∧ m.document = some d ∧
        env.getImageUrl d.fileID = .ok url ∧
        sm = applyCaption m.caption
          { initMsg m with image := some { url := url, fileID := d.fileID,
                                           extractedText := extractedTextOf env url } }) ∨
     (m.photo = [] ∧ m.document = none ∧ sm = initMsg m)) := by
  by_cases hp : 0 < m.photo.length
  · rw [preProcessMsg_photo env u m hm hp] at hres
    obtain ⟨sm', hok, hmap⟩ := except_map_ok_inv _ _ _ hres
    simp only [Prod.mk.injEq, Option.some.injEq] at hmap
    obtain ⟨h1, h2⟩ := hmap
    subst h1
    obtain ⟨ph, url, hph, hu, hsm⟩ := handlePhotoMessage_ok_inv _ _ _ _ _ hok
    exact ⟨h2.symm, Or.inl ⟨ph, url, hph, List.length_pos.mp hp, hu, hsm⟩⟩
  · have hpe : m.photo = [] := photo_nil_of_not_pos m hp
    cases hd : m.document with
    | some d =>
      rw [preProcessMsg_doc env u m d hm hpe hd] at hres
      obtain ⟨sm', hok, hmap⟩ := except_map_ok_inv _ _ _ hres
      simp only [Prod.mk.injEq, Option.some.injEq] at hmap
      obtain ⟨h1, h2⟩ := hmap
      subst h1
      obtain ⟨url, hu, hsm⟩ := handleDocumentMessage_ok_inv _ _ _ _ _ hok
      exact ⟨h2.symm, Or.inr (Or.inl ⟨d, url, hpe, rfl, hu, hsm⟩)⟩
    | none =>
      rw [preProcessMsg_plain env u m hm hpe hd] at hres
      simp only [Except.ok.injEq, Prod.mk.injEq, Option.some.injEq] at hres
      exact ⟨hres.2.symm, Or.inr (Or.inr ⟨hpe, rfl, hres.1.symm⟩)⟩

/-- Shared sentinel lemma: with resolvable URLs and an OCR collaborator
that fails on every URL, any attachment-bearing event still normalizes to
a message whose extraction text is the sentinel. -/
theorem preProcessMsg_sentinel (env : Env) (u : Update) (m : TgMessage)
    (hm : u.message = some m)
    (hatt : m.photo ≠ [] ∨ m.document.isSome = true)
    (hurl : ∀ f, ∃ url, env.getImageUrl f = .ok url)
    (hext : ∀ url, ∃ e, env.extractTextFromImage url = .error e) :
    ∃ sm img, preProcessMsg env u = .ok (some sm, m.chat.id) ∧
      sm.image = some img ∧ img.extractedText = "OCR extraction failed" := by
  by_cases hp : 0 < m.photo.length
  · have hne : m.photo ≠ [] := List.length_pos.mp hp
    obtain ⟨ph, hph⟩ : ∃ ph, PickBestPhoto m.photo = some ph :=
      ⟨_, pickBestPhoto_eq_getLast m.photo hne⟩
    obtain ⟨url, hu⟩ := hurl ph.fileID
    obtain ⟨e, he⟩ := hext url
    refine ⟨applyCaption m.caption
      { initMsg m with image := some { url := url, fileID := ph.fileID,
                                       extractedText := extractedTextOf env url } },
      { url := url, fileID := ph.fileID, extractedText := extractedTextOf env url },
      ?_, ?_, ?_⟩
    · rw [preProcessMsg_photo env u m hm hp,
          handlePhotoMessage_eq_ok env (initMsg m) m.photo m.caption ph url hph hu]
      rfl
    · rw [applyCaption_image]
    · exact extractedTextOf_of_error env url e he
  · have hpe : m.photo = [] := photo_nil_of_not_pos m hp
    obtain ⟨d, hd⟩ : ∃ d, m.document = some d := by
      rcases hatt with h | h
      · exact absurd hpe h
      · exact Option.isSome_iff_exists.mp h
    obtain ⟨url, hu⟩ := hurl d.fileID
    obtain ⟨e, he⟩ := hext url
    refine ⟨applyCaption m.caption
      { initMsg m with image := some { url := url, fileID := d.fileID,
                                       extractedText := extractedTextOf env url } },
      { url := url, fileID := d.fileID, extractedText := extractedTextOf env url },
      ?_, ?_, ?_⟩
    · rw [preProcessMsg_doc env u m d hm hpe hd,
          handleDocumentMessage_eq_ok env (initMsg m) d m.caption url hu]
      rfl
    · rw [applyCaption_image]
    · exact extractedTextOf_of_error env url e he

/-! ## Claim theorems -/

/-- **C1.** For every inbound event carrying a photo or a document, and
for every extraction failure (the OCR collaborator fails on every URL,
with any failure reason), normalization still completes with a canonical
message — never an error — and the attachment extraction's text equals the
fixed sentinel `"OCR extraction failed"` exactly.  (URL resolution is
assumed to succeed; its failure is the separate abort path of the spec's
fatal-error list.) -/
theorem ocr_failure_never_aborts (env : Env) (u : Update) (m : TgMessage)
    (hm : u.message = some m)
    (hatt : m.photo ≠ [] ∨ m.document.isSome = true)
    (hurl : ∀ f, ∃ url, env.getImageUrl f = .ok url)
    (hext : ∀ url, ∃ e, env.extractTextFromImage url = .error e) :
    ∃ sm img, preProcessMsg env u = .ok (some sm, m.chat.id) ∧
      sm.image = some img ∧ img.extractedText = "OCR extraction failed" :=
  preProcessMsg_sentinel env u m hm hatt hurl hext

/-- Witness for C1: a concrete photo+document event against an
environment whose OCR call always fails. -/
theorem ocr_failure_never_aborts_witness :
    ∃ sm img, preProcessMsg envOCRFail updBoth = .ok (some sm, 7) ∧
      sm.image = some img ∧ img.extractedText = "OCR extraction failed" :=
  ocr_failure_never_aborts envOCRFail updBoth tgMsgBoth rfl
    (Or.inl (by decide))
    (fun f => ⟨"https://files.example/" ++ f, rfl⟩)
    (fun _ => ⟨"ocr transport down", rfl⟩)

/-- **C2.** For every inbound event with a non-empty caption that carries
an attachment (photo or document), any canonical message normalization
produces has its text equal to the caption — never the original message
text. -/
theorem caption_override (env : Env) (u : Update) (m : TgMessage)
    (sm : SBMessage) (cid : Int)
    (hm : u.message = some m)
    (hatt : m.photo ≠ [] ∨ m.document.isSome = true)
    (hcap : m.caption ≠ "")
    (hres : preProcessMsg env u = .ok (some sm, cid)) :
    sm.text = m.caption := by
  have hclen : 0 < m.caption.length := string_length_pos m.caption hcap
  obtain ⟨-, hcases⟩ := preProcessMsg_ok_inv env u m sm cid hm hres
  rcases hcases with ⟨ph, url, _, _, _, hsm⟩ | ⟨d, url, _, _, _, hsm⟩ | ⟨hpe, hde, hsm⟩
  · rw [hsm, applyCaption_text, if_pos hclen]
  · rw [hsm, applyCaption_text, if_pos hclen]
  · rcases hatt with h | h
    · exact absurd hpe h
    · rw [hde] at h
      simp at h

/-- Witness for C2: the concrete captioned photo event. -/
theorem caption_override_witness : smBoth.text = "split lunch" :=
  caption_override envOK updBoth tgMsgBoth smBoth 7 rfl
    (Or.inl (by decide)) (by decide) rfl

/-- **C3 counterexample.** A photo-bearing event whose caption is empty
and whose message text is non-empty: normalization produces a message
that carries an attachment extraction yet keeps the original message text
`"original text"`, not the (empty) caption — refuting the claim that the
text holds the caption even when the caption is empty. -/
theorem attachment_text_is_caption_cex :
    preProcessMsg envOK updPhotoNoCap = .ok (some smPhotoNoCap, 7) ∧
    smPhotoNoCap.image.isSome = true ∧
    tgMsgPhotoNoCap.caption = "" ∧
    smPhotoNoCap.text = tgMsgPhotoNoCap.text ∧
    smPhotoNoCap.text ≠ tgMsgPhotoNoCap.caption :=
  ⟨rfl, rfl, rfl, rfl, by decide⟩

/-- **C3 (amended).** If the canonical message normalization produces
carries an attachment extraction, its text is the caption when the
caption is non-empty, and otherwise remains the original message text
(the empty caption does not overwrite it). -/
theorem attachment_text_is_caption_amended (env : Env) (u : Update) (m : TgMessage)
    (sm : SBMessage) (cid : Int)
    (hm : u.message = some m)
    (hres : preProcessMsg env u = .ok (some sm, cid))
    (himg : sm.image.isSome = true) :
    sm.text = if 0 < m.caption.length then m.caption else m.text := by
  obtain ⟨-, hcases⟩ := preProcessMsg_ok_inv env u m sm cid hm hres
  rcases hcases with ⟨ph, url, _, _, _, hsm⟩ | ⟨d, url, _, _, _, hsm⟩ | ⟨_, _, hsm⟩
  · rw [hsm, applyCaption_text, initMsg_text]
  · rw [hsm, applyCaption_text, initMsg_text]
  · rw [hsm, initMsg_image] at himg
    simp at himg

/-- Witness for the amended C3: the empty-caption photo event keeps the
original text. -/
theorem attachment_text_is_caption_amended_witness :
    smPhotoNoCap.text = if 0 < ("" : String).length then "" else "original text" :=
  attachment_text_is_caption_amended envOK updPhotoNoCap tgMsgPhotoNoCap
    smPhotoNoCap 7 rfl rfl rfl

/-- **C4.** On every non-empty photo-variant sequence, `PickBestPhoto`
returns exactly the last element — no re-sorting, no dimension
comparison: the result is determined by position alone. -/
theorem pickBestPhoto_last (photos : List Photo) (h : photos ≠ []) :
    PickBestPhoto photos = some (photos.getLast h) :=
  pickBestPhoto_eq_getLast photos h

/-- Witness for C4 at lengths 1, 2 and 3 (ascending widths 90, 320,
800 — the 800-wide variant is returned). -/
theorem pickBestPhoto_last_witness :
    PickBestPhoto [photo1] = some photo1 ∧
    PickBestPhoto [photo1, photo2] = some photo2 ∧
    PickBestPhoto [photo1, photo2, photo3] = some photo3 :=
  ⟨(pickBestPhoto_last [photo1] (by decide)).trans rfl,
   (pickBestPhoto_last [photo1, photo2] (by decide)).trans rfl,
   (pickBestPhoto_last [photo1, photo2, photo3] (by decide)).trans rfl⟩

/-- **C5.** For every event carrying both a non-empty photo-variant
sequence and a document reference, any attachment extraction the produced
canonical message carries has the file identifier of the selected (last)
photo variant: the photo branch is taken, the document branch never
reached. -/
theorem photo_precedence_over_document (env : Env) (u : Update) (m : TgMessage)
    (d : TgDocument) (sm : SBMessage) (cid : Int)
    (hm : u.message = some m)
    (hp : m.photo ≠ [])
    (_hd : m.document = some d)
    (hres : preProcessMsg env u = .ok (some sm, cid)) :
    ∃ img ph, sm.image = some img ∧ PickBestPhoto m.photo = some ph ∧
      img.fileID = ph.fileID := by
  have hp' : 0 < m.photo.length := List.length_pos.mpr hp
  rw [preProcessMsg_photo env u m hm hp'] at hres
  obtain ⟨sm', hok, hmap⟩ := except_map_ok_inv _ _ _ hres
  simp only [Prod.mk.injEq, Option.some.injEq] at hmap
  obtain ⟨h1, -⟩ := hmap
  subst h1
  obtain ⟨ph, url, hph, hu, hsm⟩ := handlePhotoMessage_ok_inv _ _ _ _ _ hok
  refine ⟨{ url := url, fileID := ph.fileID, extractedText := extractedTextOf env url },
    ph, ?_, hph, rfl⟩
  rw [hsm, applyCaption_image]

/-- Witness for C5: the event carrying photos `p1,p2,p3` and document
`d1` yields an extraction sourced from `p3`. -/
theorem photo_precedence_over_document_witness :
    ∃ img ph, smBoth.image = some img ∧
      PickBestPhoto tgMsgBoth.photo = some ph ∧ img.fileID = ph.fileID :=
  photo_precedence_over_document envOK updBoth tgMsgBoth doc1 smBoth 7
    rfl (by decide) rfl rfl

/-- **C6.** (i) On every provider success response whose page list has
length other than 1, the extraction gateway returns the
unexpected-page-count failure, never a success text; (ii) on a one-page
success it returns that page's markdown; (iii) under the normalization
pipeline, a two-page provider response still completes the event and the
final reply equals the sentinel string. -/
theorem unexpected_page_count :
    (∀ r : MistralOCRResponse, r.pages.length ≠ 1 →
      ExtractTextFromImage (.ok (some r)) =
        .error ("expected exactly 1 page, got " ++ toString r.pages.length)) ∧
    (∀ (r : MistralOCRResponse) (p : Page), r.pages = [p] →
      ExtractTextFromImage (.ok (some r)) = .ok p.markdown) ∧
    (∀ (g rc : String → Except String String)
       (snd : Int → String → Except String Unit)
       (provider : String → ProviderResponse)
       (u : Update) (m : TgMessage),
      u.message = some m →
      (m.photo ≠ [] ∨ m.document.isSome = true) →
      (∀ f, ∃ url, g f = .ok url) →
      (∀ url, ∃ r, provider url = .ok (some r) ∧ r.pages.length = 2) →
      ∃ sm, preProcessMsg
          { getImageUrl := g,
            extractTextFromImage := fun url => ExtractTextFromImage (provider url),
            runChain := rc, sendMessage := snd } u = .ok (some sm, m.chat.id) ∧
        HandleMessage rc sm = .ok "OCR extraction failed") := by
  refine ⟨?_, ?_, ?_⟩
  · intro r h
    simp only [ExtractTextFromImage]
    rw [if_pos h]
  · intro r p hp
    simp [ExtractTextFromImage, hp]
  · intro g rc snd provider u m hm hatt hurl hprov
    have hext : ∀ url, ∃ e,
        ExtractTextFromImage (provider url) = .error e := by
      intro url
      obtain ⟨r, hr, hlen⟩ := hprov url
      refine ⟨"expected exactly 1 page, got " ++ toString r.pages.length, ?_⟩
      rw [hr]
      simp only [ExtractTextFromImage]
      rw [if_pos (by rw [hlen]; decide)]
    obtain ⟨sm, img, hpre, himg, htext⟩ :=
      preProcessMsg_sentinel
        { getImageUrl := g,
          extractTextFromImage := fun url => ExtractTextFromImage (provider url),
          runChain := rc, sendMessage := snd } u m hm hatt hurl hext
    exact ⟨sm, hpre, by simp [HandleMessage, himg, htext]⟩

/-- Witness for C6: the gateway on a two-page and a one-page response,
and the full pipeline on a document event against a two-page provider. -/
theorem unexpected_page_count_witness :
    ExtractTextFromImage (.ok (some { pages := [pageOne, pageTwo] })) =
      .error "expected exactly 1 page, got 2" ∧
    ExtractTextFromImage (.ok (some { pages := [pageOne] })) = .ok "page one" ∧
    (∃ sm, preProcessMsg envTwoPages updDoc = .ok (some sm, 9) ∧
      HandleMessage envTwoPages.runChain sm = .ok "OCR extraction failed") :=
  ⟨(unexpected_page_count.1 { pages := [pageOne, pageTwo] } (by decide)).trans rfl,
   unexpected_page_count.2.1 { pages := [pageOne] } pageOne rfl,
   unexpected_page_count.2.2 envOK.getImageUrl envOK.runChain envOK.sendMessage
     providerTwoPages updDoc tgMsgDoc rfl (Or.inr rfl)
     (fun f => ⟨"https://files.example/" ++ f, rfl⟩)
     (fun _ => ⟨{ pages := [pageOne, pageTwo] }, rfl, rfl⟩)⟩

/-- **C7.** A parsed event with no message body makes normalization
signal the distinguished ignored outcome — `.ok (none, 0)`, not an
error — and the webhook answers "ignored" without any `SendMessage`
call. -/
theorem ignored_event (env : Env) (u : Update) (hm : u.message = none) :
    preProcessMsg env u = .ok (none, 0) ∧
    TelegramWebhook env u = (.ignored, []) := by
  have h := preProcessMsg_none env u hm
  exact ⟨h, by simp [TelegramWebhook, h]⟩

/-- Witness for C7: the event whose `message` field is absent. -/
theorem ignored_event_witness :
    preProcessMsg envOK updEmpty = .ok (none, 0) ∧
    TelegramWebhook envOK updEmpty = (.ignored, []) :=
  ignored_event envOK updEmpty rfl

/-- **C8.** When resolving the attachment's fetchable URL fails — on the
selected photo variant, or on the document when no photo is present —
normalization aborts with an error (no canonical message), and the
webhook surfaces an internal error without any `SendMessage` call. -/
theorem url_failure_aborts (env : Env) (u : Update) (m : TgMessage)
    (hm : u.message = some m)
    (hcase :
      (m.photo ≠ [] ∧ ∃ ph e, PickBestPhoto m.photo = some ph ∧
        env.getImageUrl ph.fileID = .error e) ∨
      (m.photo = [] ∧ ∃ d e, m.document = some d ∧
        env.getImageUrl d.fileID = .error e)) :
    preProcessMsg env u = .error "failed to get image URL" ∧
    TelegramWebhook env u = (.internalError "failed to get image URL", []) := by
  have hpre : preProcessMsg env u = .error "failed to get image URL" := by
    rcases hcase with ⟨hne, ph, e, hph, hu⟩ | ⟨hpe, d, e, hd, hu⟩
    · rw [preProcessMsg_photo env u m hm (List.length_pos.mpr hne),
          handlePhotoMessage_eq_error env (initMsg m) m.photo m.caption ph e hph hu]
      rfl
    · rw [preProcessMsg_doc env u m d hm hpe hd,
          handleDocumentMessage_eq_error env (initMsg m) d m.caption e hu]
      rfl
  exact ⟨hpre, by simp [TelegramWebhook, hpre]⟩

/-- Witness for C8: the photo event against an environment whose URL
resolution fails. -/
theorem url_failure_aborts_witness :
    preProcessMsg envURLFail updBoth = .error "failed to get image URL" ∧
    TelegramWebhook envURLFail updBoth =
      (.internalError "failed to get image URL", []) :=
  url_failure_aborts envURLFail updBoth tgMsgBoth rfl
    (Or.inl ⟨by decide, photo3, "telegram api down", rfl, rfl⟩)

/-- **C9 counterexample.** A canonical message with text `"Hello"` and no
attachment: `HandleMessage` returns the conversational chain's output
(here a canned reply), not `"Hello"` — there is no configuration in which
the chain is skipped, refuting the disabled-capability passthrough. -/
theorem no_attachment_passthrough_cex :
    msgHello.image = none ∧ msgHello.text = "Hello" ∧
    HandleMessage runChainCanned msgHello = .ok "canned agent reply" ∧
    "canned agent reply" ≠ "Hello" :=
  ⟨rfl, rfl, rfl, by decide⟩

/-- **C9 (amended).** For every canonical message without an attachment
extraction, `HandleMessage` routes the message text through the
conversational chain and returns the chain's result — the reply equals
the text only when the chain echoes its input. -/
theorem no_attachment_routes_chain (rc : String → Except String String)
    (m : SBMessage) (h : m.image = none) :
    HandleMessage rc m = rc m.text := by
  simp [HandleMessage, h]

/-- Witness for the amended C9: the `"Hello"` message is routed through
the chain. -/
theorem no_attachment_routes_chain_witness :
    HandleMessage envOK.runChain msgHello = envOK.runChain "Hello" :=
  no_attachment_routes_chain envOK.runChain msgHello rfl

/-- **C10.** For every parsed event with neither a photo-variant list nor
a document, the produced canonical message is the initialized one: its
text equals the event's text, it has no attachment extraction, and the
caption has no effect — replacing the caption by any value yields the
same result. -/
theorem no_attachment_ignores_caption (env : Env) (u : Update) (m : TgMessage)
    (hm : u.message = some m) (hp : m.photo = []) (hd : m.document = none) :
    preProcessMsg env u = .ok (some (initMsg m), m.chat.id) ∧
    (initMsg m).text = m.text ∧ (initMsg m).image = none ∧
    (∀ c, preProcessMsg env { message := some { m with caption := c } } =
      preProcessMsg env u) := by
  refine ⟨preProcessMsg_plain env u m hm hp hd, initMsg_text m, initMsg_image m, ?_⟩
  intro c
  rw [preProcessMsg_plain env { message := some { m with caption := c } }
        { m with caption := c } rfl hp hd,
      preProcessMsg_plain env u m hm hp hd, initMsg_caption_irrel]

/-- Witness for C10: the plain `"Hello"` event (with a populated caption
field) passes its text through untouched. -/
theorem no_attachment_ignores_caption_witness :
    preProcessMsg envOK updText = .ok (some (initMsg tgMsgText), 3) :=
  (no_attachment_ignores_caption envOK updText tgMsgText rfl rfl rfl).1

end SplitBot
